import Mathlib

/-!
Verification of the `DailyBuyStrategy` trading-strategy module
(`DailyBuyStrategy.py`).  The strategy's pure decision logic is shallowly
embedded below: candle series become lists of rational-valued OHLCV rows,
pandas/TA-Lib indicator columns become functions from a row index to
`Option ℚ` (`none` models a NaN cell; pandas comparisons against NaN are
`False`, which the option-aware comparison helpers reproduce), and the
host-provided per-trade custom-data store and manual command queue become
explicit state threaded through the functions.
-/

attribute [local semireducible] Rat.add Rat.mul Rat.sub Rat.inv Rat.ofScientific

set_option maxRecDepth 100000

/-- One OHLCV candle row.  The `open` price is never read by the embedded
logic, so it is omitted. -/
structure Candle where
  high : ℚ
  low : ℚ
  close : ℚ
  volume : ℚ
deriving DecidableEq, Repr

def closesL (df : List Candle) : List ℚ := df.map Candle.close

def highsL (df : List Candle) : List ℚ := df.map Candle.high

def lowsL (df : List Candle) : List ℚ := df.map Candle.low

def closeAt (df : List Candle) (i : ℕ) : ℚ := (closesL df).getD i 0

def highAt (df : List Candle) (i : ℕ) : ℚ := (highsL df).getD i 0

def lowAt (df : List Candle) (i : ℕ) : ℚ := (lowsL df).getD i 0

def volAt (df : List Candle) (i : ℕ) : ℚ := (df.map Candle.volume).getD i 0

/-- Option-aware strict greater-than, mirroring pandas `>`: a comparison
involving a NaN cell is `False`. -/
def oGT : Option ℚ → Option ℚ → Bool
  | some a, some b => decide (a > b)
  | _, _ => false

/-- Option-aware strict less-than, mirroring pandas `<`. -/
def oLT : Option ℚ → Option ℚ → Bool
  | some a, some b => decide (a < b)
  | _, _ => false

/-- Maximum of a list of rationals, `none` on the empty list. -/
def listMax : List ℚ → Option ℚ
  | [] => none
  | x :: xs => some (xs.foldl max x)

/-- Minimum of a list of rationals, `none` on the empty list. -/
def listMin : List ℚ → Option ℚ
  | [] => none
  | x :: xs => some (xs.foldl min x)

/-- The values visible to a pandas rolling window of size `w` at row `i`:
indices `max 0 (i+1-w)` through `i`. -/
def sliceWin (xs : List ℚ) (w i : ℕ) : List ℚ := (xs.take (i + 1)).drop (i + 1 - w)

/-- Embedding of `Series.rolling(window=w, min_periods=m).max()` at row `i`
(`none` models the NaN emitted while fewer than `m` observations are in the
window). -/
def rollMax (xs : List ℚ) (w m i : ℕ) : Option ℚ :=
  if m ≤ (sliceWin xs w i).length then listMax (sliceWin xs w i) else none

/-- Embedding of `Series.rolling(window=w, min_periods=m).min()` at row `i`. -/
def rollMin (xs : List ℚ) (w m i : ℕ) : Option ℚ :=
  if m ≤ (sliceWin xs w i).length then listMin (sliceWin xs w i) else none


/-- The strategy's tunable parameters together with their defaults
(`IntParameter`/`DecimalParameter` declarations of `DailyBuyStrategy`). -/
structure Params where
  new_sl_coef : ℚ
  lookback_length : ℕ
  upper_trigger_level : ℚ
  lower_trigger_level : ℚ
  swing_window : ℕ
  swing_min_periods : ℕ
  buy_ema_short : ℕ
  buy_ema_long : ℕ
  dca_candles_modulo : ℕ
  dca_threshold : ℚ
deriving Repr

/-- Default parameter values as declared in the source. -/
def defaultParams : Params :=
  ⟨0.75, 15, 100, -100, 50, 10, 10, 50, 10, 0.01⟩

/-! ### TTF (populate_indicators, lines 163-173)

`hh`/`ll` are `close.rolling(window=L).max()/.min()` (pandas default
`min_periods` equals the window size), `buyPower = hh - ll.shift(L)`,
`sellPower = hh.shift(L) - ll`, and
`ttf = 200 * (buyPower - sellPower) / (buyPower + sellPower)`.
A zero denominator produces a non-finite float (NaN or ±inf); every claim
below concerns only rows with a nonzero denominator, so the embedding
returns `none` there. -/

def hhAt (p : Params) (df : List Candle) (i : ℕ) : Option ℚ :=
  rollMax (closesL df) p.lookback_length p.lookback_length i

def llAt (p : Params) (df : List Candle) (i : ℕ) : Option ℚ :=
  rollMin (closesL df) p.lookback_length p.lookback_length i

/-- Embedding of `Series.shift(n)` applied to an option-valued column. -/
def shiftCol (f : ℕ → Option ℚ) (n i : ℕ) : Option ℚ :=
  if n ≤ i then f (i - n) else none

def buyPowerAt (p : Params) (df : List Candle) (i : ℕ) : Option ℚ :=
  match hhAt p df i, shiftCol (llAt p df) p.lookback_length i with
  | some a, some b => some (a - b)
  | _, _ => none

def sellPowerAt (p : Params) (df : List Candle) (i : ℕ) : Option ℚ :=
  match shiftCol (hhAt p df) p.lookback_length i, llAt p df i with
  | some a, some b => some (a - b)
  | _, _ => none

def ttfAt (p : Params) (df : List Candle) (i : ℕ) : Option ℚ :=
  match buyPowerAt p df i, sellPowerAt p df i with
  | some b, some s => if b + s = 0 then none else some (200 * (b - s) / (b + s))
  | _, _ => none

/-! ### TA-Lib EMA and MACD (populate_indicators, lines 132-137)

TA-Lib's `EMA(close, n)` is NaN before index `n-1`, is seeded at index
`n-1` with the simple average of the first `n` closes, and then follows
`ema[i] = (close[i] - ema[i-1]) * k + ema[i-1]` with `k = 2/(n+1)`.

TA-Lib's `MACD(close)` (fast 12, slow 26, signal 9) computes both EMAs
starting at index 25 — the slow EMA seeded there with the average of
`close[0..25]`, the fast EMA seeded there with the average of
`close[14..25]` — takes their difference as the MACD line, smooths that
line with a 9-period EMA seeded at index 33 with the average of the first
nine MACD-line values, and reports both outputs as NaN before index 33. -/

/-- Sum of `n` consecutive values of `x` starting at index `s`. -/
def winSum (x : ℕ → ℚ) (s : ℕ) : ℕ → ℚ
  | 0 => 0
  | n + 1 => winSum x s n + x (s + n)

/-- Average of `n` consecutive values of `x` starting at index `s`. -/
def winAvg (x : ℕ → ℚ) (s n : ℕ) : ℚ := winSum x s n / n

def emaStep (k x p : ℚ) : ℚ := (x - p) * k + p

/-- Exponential-moving-average recurrence over the values of `x`, equal to
`seed` up to index `s` and following the TA-Lib recurrence with smoothing
constant `k` afterwards. -/
def emaRec (x : ℕ → ℚ) (s : ℕ) (seed k : ℚ) : ℕ → ℚ
  | 0 => seed
  | i + 1 => if i + 1 ≤ s then seed else emaStep k (x (i + 1)) (emaRec x s seed k i)

def closeF (df : List Candle) : ℕ → ℚ := fun i => closeAt df i

/-- `ta.EMA(dataframe, timeperiod=n)` at row `i`. -/
def taEMA (df : List Candle) (n i : ℕ) : Option ℚ :=
  if i + 1 < n then none
  else some (emaRec (closeF df) (n - 1) (winAvg (closeF df) 0 n) (2 / ((n : ℚ) + 1)) i)

def emaShortAt (p : Params) (df : List Candle) (i : ℕ) : Option ℚ := taEMA df p.buy_ema_short i

def emaLongAt (p : Params) (df : List Candle) (i : ℕ) : Option ℚ := taEMA df p.buy_ema_long i

/-- The internal MACD line (fast EMA minus slow EMA), valid from index 25. -/
def macdLine (df : List Candle) (i : ℕ) : ℚ :=
  emaRec (closeF df) 25 (winAvg (closeF df) 14 12) (2 / 13) i -
    emaRec (closeF df) 25 (winAvg (closeF df) 0 26) (2 / 27) i

/-- The internal MACD signal line (9-period EMA of the MACD line), valid
from index 33. -/
def macdSigLine (df : List Candle) (i : ℕ) : ℚ :=
  emaRec (macdLine df) 33 (winAvg (macdLine df) 25 9) (1 / 5) i

/-- `dataframe['macd']` at row `i`. -/
def macdAt (df : List Candle) (i : ℕ) : Option ℚ :=
  if 33 ≤ i then some (macdLine df i) else none

/-- `dataframe['macdsignal']` at row `i`. -/
def macdsignalAt (df : List Candle) (i : ℕ) : Option ℚ :=
  if 33 ≤ i then some (macdSigLine df i) else none

/-! ### Pivot levels, resistance signal and swings
(calculate_pivots, calculate_swing, populate_indicators lines 138-154) -/

/-- `dataframe['previous_close'] = close.shift(1)` at row `i`. -/
def prevCloseAt (df : List Candle) : ℕ → Option ℚ
  | 0 => none
  | j + 1 => some (closeAt df j)

/-- Pivot point `pp = (high.shift(1) + low.shift(1) + close.shift(1)) / 3`. -/
def ppAt (df : List Candle) : ℕ → Option ℚ
  | 0 => none
  | j + 1 => some ((highAt df j + lowAt df j + closeAt df j) / 3)

/-- First resistance `r1 = 2 * pp - low.shift(1)`. -/
def r1At (df : List Candle) : ℕ → Option ℚ
  | 0 => none
  | j + 1 => some (2 * ((highAt df j + lowAt df j + closeAt df j) / 3) - lowAt df j)

/-- `dataframe['resistance_signal'] = (close > r1) & (close > previous_close)`. -/
def resistanceSignalAt (df : List Candle) (i : ℕ) : Bool :=
  oGT (some (closeAt df i)) (r1At df i) && oGT (some (closeAt df i)) (prevCloseAt df i)

/-- `dataframe['swing_high']`: rolling max of `high` over `swing_window`
with `swing_min_periods`. -/
def swingHighAt (p : Params) (df : List Candle) (i : ℕ) : Option ℚ :=
  rollMax (highsL df) p.swing_window p.swing_min_periods i

/-! ### Entry and exit condition atoms (populate_entry_trend /
populate_exit_trend).  Python `&` binds tighter than `|`, so the entry
condition at line 190-192 parses as
`(macd > macdsignal ∧ ema_short > ema_long) ∨ (resistance_signal ∧ volume > 0)
 ∨ (ttf > upper_trigger_level)`. -/

def macdBullAt (df : List Candle) (i : ℕ) : Bool :=
  oGT (macdAt df i) (macdsignalAt df i)

def emaBullAt (p : Params) (df : List Candle) (i : ℕ) : Bool :=
  oGT (emaShortAt p df i) (emaLongAt p df i)

def resistVolAt (df : List Candle) (i : ℕ) : Bool :=
  resistanceSignalAt df i && decide (volAt df i > 0)

def ttfHighAt (p : Params) (df : List Candle) (i : ℕ) : Bool :=
  oGT (ttfAt p df i) (some p.upper_trigger_level)

def macdBearAt (df : List Candle) (i : ℕ) : Bool :=
  oLT (macdAt df i) (macdsignalAt df i)

def emaBearAt (p : Params) (df : List Candle) (i : ℕ) : Bool :=
  oLT (emaShortAt p df i) (emaLongAt p df i)

def swingGTAt (p : Params) (df : List Candle) (i : ℕ) : Bool :=
  oGT (some (closeAt df i)) (swingHighAt p df i)

def ttfLowAt (p : Params) (df : List Candle) (i : ℕ) : Bool :=
  oLT (ttfAt p df i) (some p.lower_trigger_level)

/-- The OR-combined technical entry condition of `populate_entry_trend`. -/
def entryBaseCondAt (p : Params) (df : List Candle) (i : ℕ) : Bool :=
  (macdBullAt df i && emaBullAt p df i) || resistVolAt df i || ttfHighAt p df i

/-- The higher-timeframe confirmation `close < informative_close.shift(1)`,
where `v` is the informative close column already reindexed (nearest) to
the main dataframe's index. -/
def infCondAt (df : List Candle) (v : List ℚ) : ℕ → Bool
  | 0 => false
  | j + 1 => decide (closeAt df (j + 1) < v.getD j 0)

/-- The final entry condition: the technical condition, AND'd with the
higher-timeframe confirmation when informative data is available
(`inf = some v` holds the reindexed informative closes; `inf = none`
models an empty informative dataframe, in which case the confirmation is
skipped). -/
def entryMaskAt (p : Params) (df : List Candle) (inf : Option (List ℚ)) (i : ℕ) : Bool :=
  match inf with
  | some v => entryBaseCondAt p df i && infCondAt df v i
  | none => entryBaseCondAt p df i

/-- The base exit condition of `populate_exit_trend`:
`((close > swing_high) ∨ (macd < macdsignal ∧ ema_short < ema_long)
  ∨ (ttf < lower_trigger_level)) ∧ (volume > 0)`. -/
def exitBaseCondAt (p : Params) (df : List Candle) (i : ℕ) : Bool :=
  (swingGTAt p df i || (macdBearAt df i && emaBearAt p df i) || ttfLowAt p df i) &&
    decide (volAt df i > 0)

/-! ### Manual command queue and the populate functions -/

/-- A queued manual override `{'pair': ..., 'command': ...}`. -/
structure ManualCmd where
  pair : String
  command : String
deriving DecidableEq, Repr

/-- Result of a populate pass: per-row signal flag and tag. -/
structure Signals where
  flag : ℕ → Bool
  tag : ℕ → Option String

/-- Embedding of `populate_entry_trend`: the queue is inspected at its last
element only; a matching `BUY` command marks every positive-volume row with
`enter_long = 1` / tag `'trigger_buy'` and removes every command for that
pair; otherwise the technical path assigns `enter_long = 1` / tag
`'multi_timeframe_cross'` where the final condition holds, leaving the
queue untouched. -/
def populate_entry_trend (p : Params) (cmds : List ManualCmd) (pair : String)
    (df : List Candle) (inf : Option (List ℚ)) : Signals × List ManualCmd :=
  let base : Signals × List ManualCmd :=
    (⟨fun i => entryMaskAt p df inf i,
      fun i => if entryMaskAt p df inf i then some "multi_timeframe_cross" else none⟩, cmds)
  match cmds.getLast? with
  | some c =>
    if c.pair = pair ∧ c.command = "BUY" then
      (⟨fun i => decide (volAt df i > 0),
        fun i => if volAt df i > 0 then some "trigger_buy" else none⟩,
       cmds.filter fun s => s.pair ≠ pair)
    else base
  | none => base

/-! ### Concrete candle series used to evaluate the definitions -/

/-- Closes of a 60-bar series: a 10-per-bar downtrend, steepening to 30 per
bar over the last eleven bars, followed by a one-tick bounce. -/
def dfBearClose (i : ℕ) : ℚ :=
  if i ≤ 47 then 1000 - 10 * (i : ℚ)
  else if i ≤ 58 then 530 - 30 * ((i : ℚ) - 47)
  else 201

/-- The 60-bar series itself (degenerate candles, unit volume). -/
def dfBear : List Candle :=
  (List.range 60).map fun i => ⟨dfBearClose i, dfBearClose i, dfBearClose i, 1⟩

/-- A 30-bar series: fifteen closes at 10, fourteen at 0, one at 1. -/
def dfDrop : List Candle :=
  (List.range 30).map fun i =>
    let c : ℚ := if i ≤ 14 then 10 else if i ≤ 28 then 0 else 1
    ⟨c, c, c, 1⟩

/-- A 30-bar series of closes alternating between 0 and 10. -/
def dfFlip : List Candle :=
  (List.range 30).map fun i =>
    let c : ℚ := if i % 2 = 0 then 0 else 10
    ⟨c, c, c, 1⟩


/-! ### Exit confirmation (confirm_trade_exit, lines 242-257) -/

/-- `charsLead needle hay` holds when `needle` occurs at the head of `hay`. -/
def charsLead : List Char → List Char → Bool
  | [], _ => true
  | _ :: _, [] => false
  | a :: as, b :: bs => a == b && charsLead as bs

/-- `charsHas needle hay` holds when `needle` occurs contiguously anywhere
in `hay`. -/
def charsHas (needle : List Char) : List Char → Bool
  | [] => charsLead needle []
  | c :: rest => charsLead needle (c :: rest) || charsHas needle rest

/-- Python's substring test `needle in hay`. -/
def strIn (needle hay : String) : Bool := charsHas needle.data hay.data


/-- Embedding of `confirm_trade_exit` (the host computes
`profit_ratio = trade.calc_profit_ratio(rate)`; it is taken as an input). -/
def confirm_trade_exit (exit_reason : String) (profit_ratio : ℚ) : Bool :=
  if strIn "macd_ema_exit" exit_reason ∧ profit_ratio ≥ 0.005 then true
  else if (strIn "trailing" exit_reason ∨ strIn "roi" exit_reason) ∧ profit_ratio ≥ 0.005 then
    true
  else if strIn "force" exit_reason ∨ strIn "trigger" exit_reason then true
  else false

/-! ### Per-trade custom-data store, stop-loss helpers, custom_exit and
adjust_trade_position (lines 259-333).

The host's `CustomDataWrapper` is modelled as a per-trade record of the two
keys the strategy uses: the DCA price list and the stop-loss value.  A
missing key (the `get_custom_data` exception path) is `none`. -/

structure Store where
  dca : Option (List ℚ)
  sl : Option ℚ
deriving DecidableEq, Repr

/-- The host `Trade` fields the strategy reads. -/
structure TradeM where
  stake_amount : ℚ
  stop_loss : ℚ
deriving DecidableEq, Repr

/-- `get_dca_list`: the stored DCA list, or `[]` when absent / on lookup
failure. -/
def get_dca_list (st : Store) : List ℚ := st.dca.getD []

/-- `get_mk_sl`: the stored stop-loss, or `trade.stop_loss` when absent /
on lookup failure. -/
def get_mk_sl (st : Store) (t : TradeM) : ℚ := st.sl.getD t.stop_loss

/-- `set_mk_sl`: persist `current_rate * new_sl_coef` as the stop-loss. -/
def set_mk_sl (p : Params) (st : Store) (rate : ℚ) : Store :=
  ⟨st.dca, some (rate * p.new_sl_coef)⟩

/-- `confirm_dca`: append the current rate to the DCA list, persist the new
stop-loss, persist the extended DCA list. -/
def confirm_dca (p : Params) (rate : ℚ) (st : Store) : Store :=
  let dcas := get_dca_list st ++ [rate]
  let st1 := set_mk_sl p st rate
  ⟨some dcas, st1.sl⟩

/-- Embedding of `custom_exit`: signal a custom exit when the current rate
is at or below the looked-up stop-loss. -/
def custom_exit (st : Store) (t : TradeM) (current_rate : ℚ) : Option String :=
  let sl := get_mk_sl st t
  if current_rate ≤ sl then some ("custom_stop_loss_" ++ toString sl) else none

/-- The last row of the analyzed dataframe as `adjust_trade_position` reads
it: its (integer) index and its `resistance_signal` cell.  The surrounding
dataframe is host-provided (`dp.get_analyzed_dataframe`); `none` at the
call site models an empty dataframe. -/
structure AdjDF where
  lastIndex : ℕ
  lastResistanceSignal : Bool
deriving DecidableEq, Repr

/-- Step-1 guard: a prior DCA price exists and the current rate is at or
above 99.5% of the last DCA price. -/
def dcaDropGuard (dcas : List ℚ) (rate : ℚ) : Bool :=
  decide (dcas.length > 0) && decide (rate ≥ dcas.getLastD 0 * 0.995)

/-- Step-2 guard: the current profit is not below the negative DCA
threshold. -/
def dcaProfitGuard (p : Params) (profit : ℚ) : Bool :=
  decide (profit ≥ -p.dca_threshold)

/-- Step-4 guard: a prior DCA price exists and the current rate exceeds it. -/
def dcaRecoverGuard (dcas : List ℚ) (rate : ℚ) : Bool :=
  !dcas.isEmpty && decide (rate > dcas.getLastD 0)

/-- Embedding of `adjust_trade_position`: returns the additional stake (or
`none` for refusal) together with the resulting custom-data store. -/
def adjust_trade_position (p : Params) (st : Store) (t : TradeM)
    (current_rate current_profit : ℚ) (df : Option AdjDF) : Option ℚ × Store :=
  if dcaDropGuard (get_dca_list st) current_rate then (none, st)
  else if dcaProfitGuard p current_profit then (none, st)
  else
    match df with
    | none => (none, st)
    | some d =>
      if dcaRecoverGuard (get_dca_list st) current_rate then (none, st)
      else if d.lastIndex % p.dca_candles_modulo ≠ 0 then (none, st)
      else if d.lastResistanceSignal then
        (some t.stake_amount, confirm_dca p current_rate st)
      else (none, st)

/-- Embedding of `populate_exit_trend`, symmetric to the entry pass with a
`SELL` command and the base exit condition. -/
def populate_exit_trend (p : Params) (cmds : List ManualCmd) (pair : String)
    (df : List Candle) : Signals × List ManualCmd :=
  let base : Signals × List ManualCmd :=
    (⟨fun i => exitBaseCondAt p df i,
      fun i => if exitBaseCondAt p df i then some "macd_ema_exit" else none⟩, cmds)
  match cmds.getLast? with
  | some c =>
    if c.pair = pair ∧ c.command = "SELL" then
      (⟨fun i => decide (volAt df i > 0),
        fun i => if volAt df i > 0 then some "trigger_sell" else none⟩,
       cmds.filter fun s => s.pair ≠ pair)
    else base
  | none => base

/-- A single flat candle with unit volume. -/
def dfOne : List Candle := [⟨1, 1, 1, 1⟩]

/-- A single flat candle with zero volume. -/
def dfZeroVol : List Candle := [⟨1, 1, 1, 0⟩]

/-- Two flat candles, the second closing above the first. -/
def dfTwo : List Candle := [⟨10, 10, 10, 1⟩, ⟨11, 11, 11, 1⟩]

/-- A queue holding BUY commands for two different pairs. -/
def cmdsAB : List ManualCmd := [⟨"AAA/USDT", "BUY"⟩, ⟨"BBB/USDT", "BUY"⟩]

/-- A queue holding a single BUY command. -/
def cmdsA : List ManualCmd := [⟨"AAA/USDT", "BUY"⟩]

/-! ## Supporting lemmas -/

theorem le_foldl_max (l : List ℚ) (x : ℚ) : x ≤ l.foldl max x := by
  induction l generalizing x with
  | nil => exact le_refl x
  | cons y ys ih => exact le_trans (le_max_left x y) (ih (max x y))

theorem mem_le_foldl_max {a : ℚ} (l : List ℚ) (x : ℚ) (h : a ∈ l) :
    a ≤ l.foldl max x := by
  induction l generalizing x with
  | nil => cases h
  | cons y ys ih =>
    rcases List.mem_cons.mp h with rfl | hmem
    · exact le_trans (le_max_right x a) (le_foldl_max ys (max x a))
    · exact ih (max x y) hmem

theorem le_listMax {a m : ℚ} {l : List ℚ} (ha : a ∈ l) (hm : listMax l = some m) :
    a ≤ m := by
  cases l with
  | nil => cases ha
  | cons x xs =>
    have hmx : m = xs.foldl max x := by
      simpa [listMax] using hm.symm
    subst hmx
    rcases List.mem_cons.mp ha with rfl | hmem
    · exact le_foldl_max xs a
    · exact mem_le_foldl_max xs x hmem

theorem getD_mem_sliceWin {xs : List ℚ} {w i : ℕ} (hw : 1 ≤ w) (hi : i < xs.length) :
    xs.getD i 0 ∈ sliceWin xs w i := by
  have hlt : i - (i + 1 - w) < (sliceWin xs w i).length := by
    simp only [sliceWin, List.length_drop, List.length_take]
    omega
  have hval : (sliceWin xs w i).get ⟨i - (i + 1 - w), hlt⟩ = xs.getD i 0 := by
    have h1 : i + 1 - w + (i - (i + 1 - w)) < (xs.take (i + 1)).length := by
      simp only [List.length_take]
      omega
    have h2 : i + 1 - w + (i - (i + 1 - w)) = i := by omega
    simp only [sliceWin, List.get_eq_getElem, List.getElem_drop, List.getElem_take, h2]
    exact (List.getD_eq_getElem xs 0 hi).symm
  exact hval ▸ List.get_mem (sliceWin xs w i) _ hlt

/-! ## C1 -/

/-- C1 counterexample: on the 30-bar series `dfDrop` (fifteen closes at 10,
fourteen at 0, one at 1), row 29 has `buyPower = -9` and `sellPower = 10`,
so `buyPower + sellPower = 1 ≠ 0` yet the TTF value computed by
`populate_indicators` is `-3800`, far outside `[-200, 200]`.  The claim
that TTF always lies in `[-200, 200]` whenever the denominator is nonzero
is therefore false. -/
theorem ttf_escapes_bounds :
    buyPowerAt defaultParams dfDrop 29 = some (-9) ∧
      sellPowerAt defaultParams dfDrop 29 = some 10 ∧
      ttfAt defaultParams dfDrop 29 = some (-3800) ∧
      ¬(-200 ≤ (-3800 : ℚ) ∧ (-3800 : ℚ) ≤ 200) := by
  refine ⟨?_, ?_, ?_, ?_⟩
  · decide
  · decide
  · decide
  · intro h
    have := h.1
    norm_num at this

/-- C1 (amended): on every candle series and row where `buyPower` and
`sellPower` are both defined and carry the same sign (their product is
nonnegative), the TTF value `200 * (buyPower - sellPower) /
(buyPower + sellPower)` computed by `populate_indicators` — defined exactly
when the denominator is nonzero — lies in `[-200, 200]`.  With opposite
signs the value can leave that interval. -/
theorem ttf_bounded_of_same_sign (p : Params) (df : List Candle) (i : ℕ) (b s t : ℚ)
    (hb : buyPowerAt p df i = some b) (hs : sellPowerAt p df i = some s)
    (hbs : 0 ≤ b * s) (ht : ttfAt p df i = some t) :
    -200 ≤ t ∧ t ≤ 200 := by
  have hform : ttfAt p df i = if b + s = 0 then none else some (200 * (b - s) / (b + s)) := by
    unfold ttfAt
    rw [hb, hs]
  rw [hform] at ht
  by_cases h0 : b + s = 0
  · simp [h0] at ht
  · simp only [h0, if_false, Option.some.injEq] at ht
    subst ht
    have key : 200 * (b - s) / (b + s) * (b + s) = 200 * (b - s) :=
      div_mul_cancel₀ _ h0
    rcases lt_or_gt_of_ne h0 with hneg | hpos
    · have hble : b ≤ 0 := by nlinarith
      have hsle : s ≤ 0 := by nlinarith
      constructor
      · nlinarith [key]
      · nlinarith [key]
    · have hbge : 0 ≤ b := by nlinarith
      have hsge : 0 ≤ s := by nlinarith
      constructor
      · nlinarith [key]
      · nlinarith [key]

/-- C1 witness: on the alternating series `dfFlip`, row 29 has
`buyPower = sellPower = 10` (product `100 ≥ 0`), and the TTF value `0`
indeed lies in `[-200, 200]`. -/
theorem ttf_bounded_of_same_sign_witness :
    buyPowerAt defaultParams dfFlip 29 = some 10 ∧
      sellPowerAt defaultParams dfFlip 29 = some 10 ∧
      ttfAt defaultParams dfFlip 29 = some 0 ∧
      -200 ≤ (0 : ℚ) ∧ (0 : ℚ) ≤ 200 := by
  refine ⟨by decide, by decide, by decide, ?_⟩
  exact ttf_bounded_of_same_sign defaultParams dfFlip 29 10 10 0 (by decide) (by decide)
    (by norm_num) (by decide)

/-! ## C2 -/

/-- Helper: pandas `>` and `<` on the same pair of cells cannot both hold. -/
theorem oGT_oLT_contra {a b : Option ℚ} (h1 : oGT a b = true) (h2 : oLT a b = true) :
    False := by
  cases a <;> cases b <;> simp [oGT, oLT] at h1 h2
  exact absurd h2 (not_lt.mpr (le_of_lt h1))

/-- C2 counterexample: with an empty command queue (so no manual command
applies), row 59 of the 60-bar series `dfBear` receives `enter_long = 1`
from `populate_entry_trend` (its resistance-breakout disjunct fires) and
`exit_long = 1` from `populate_exit_trend` (its MACD-bearish-and-EMA-bearish
disjunct fires) — both through the base rule paths.  The claim that no row
is ever assigned both is therefore false. -/
theorem entry_and_exit_same_row :
    (populate_entry_trend defaultParams [] "BTC/USDT" dfBear none).1.flag 59 = true ∧
      (populate_exit_trend defaultParams [] "BTC/USDT" dfBear).1.flag 59 = true ∧
      resistVolAt dfBear 59 = true ∧
      (macdBearAt dfBear 59 && emaBearAt defaultParams dfBear 59) = true := by
  refine ⟨by decide, by decide, by decide, by decide⟩

/-- C2 (amended): entry and exit cannot fire on one row through the
corresponding disjunct pair — the MACD/EMA-bullish entry disjunct and the
MACD/EMA-bearish exit disjunct exclude each other, and (since the lower
trigger level is below the upper one) so do the TTF-above-upper entry
disjunct and the TTF-below-lower exit disjunct.  A row can, however, be
assigned both `enter_long` and `exit_long` through two different
disjuncts, as the counterexample shows. -/
theorem entry_exit_paired_disjuncts_exclusive (p : Params) (df : List Candle) (i : ℕ)
    (hlt : p.lower_trigger_level < p.upper_trigger_level) :
    ¬((macdBullAt df i && emaBullAt p df i) = true ∧
        (macdBearAt df i && emaBearAt p df i) = true) ∧
      ¬(ttfHighAt p df i = true ∧ ttfLowAt p df i = true) := by
  constructor
  · rintro ⟨h1, h2⟩
    rw [Bool.and_eq_true] at h1 h2
    exact oGT_oLT_contra h1.1 h2.1
  · rintro ⟨h1, h2⟩
    unfold ttfHighAt at h1
    unfold ttfLowAt at h2
    unfold oGT at h1
    unfold oLT at h2
    cases h : ttfAt p df i <;> rw [h] at h1 h2 <;> simp at h1 h2
    linarith

/-- C2 witness for the amended theorem: the default trigger levels satisfy
`lower < upper`, and the paired-disjunct exclusivity holds at row 59 of
`dfBear`. -/
theorem entry_exit_paired_disjuncts_exclusive_witness :
    defaultParams.lower_trigger_level < defaultParams.upper_trigger_level ∧
      (¬((macdBullAt dfBear 59 && emaBullAt defaultParams dfBear 59) = true ∧
          (macdBearAt dfBear 59 && emaBearAt defaultParams dfBear 59) = true) ∧
        ¬(ttfHighAt defaultParams dfBear 59 = true ∧
          ttfLowAt defaultParams dfBear 59 = true)) :=
  ⟨by decide, entry_exit_paired_disjuncts_exclusive defaultParams dfBear 59 (by decide)⟩

/-! ## C3 -/

/-- C3 counterexample.  First scenario: the queue `cmdsAB` contains a BUY
command for pair AAA/USDT, but since only the *last* queued command is
inspected and it names a different pair, `populate_entry_trend` for
AAA/USDT emits no entry signal at all and leaves the queue untouched (the
matching command is not removed).  Second scenario: even when the matching
BUY command is last, a row with zero volume is not marked, so the signal
is not emitted on *every* row. -/
theorem buy_command_claim_fails :
    (⟨"AAA/USDT", "BUY"⟩ : ManualCmd) ∈ cmdsAB ∧
      (populate_entry_trend defaultParams cmdsAB "AAA/USDT" dfOne none).1.flag 0 = false ∧
      (populate_entry_trend defaultParams cmdsAB "AAA/USDT" dfOne none).1.tag 0 = none ∧
      (populate_entry_trend defaultParams cmdsAB "AAA/USDT" dfOne none).2 = cmdsAB ∧
      (populate_entry_trend defaultParams cmdsA "AAA/USDT" dfZeroVol none).1.flag 0 = false := by
  refine ⟨by decide, by decide, by decide, by decide, by decide⟩

/-- C3 (amended): if the *last* queued command matches the current pair and
is a BUY, then `populate_entry_trend` marks exactly the rows with positive
volume with `enter_long = 1` and tag `'trigger_buy'`, and removes every
command for that pair from the queue, so the command is not repeated on the
next cycle. -/
theorem buy_command_last_triggers (p : Params) (cmds : List ManualCmd) (pair : String)
    (df : List Candle) (inf : Option (List ℚ)) (c : ManualCmd)
    (hlast : cmds.getLast? = some c) (hpair : c.pair = pair) (hcmd : c.command = "BUY") :
    (∀ i, (populate_entry_trend p cmds pair df inf).1.flag i = decide (volAt df i > 0) ∧
        (populate_entry_trend p cmds pair df inf).1.tag i =
          (if volAt df i > 0 then some "trigger_buy" else none)) ∧
      (populate_entry_trend p cmds pair df inf).2 = cmds.filter (fun s => s.pair ≠ pair) ∧
      ∀ s ∈ (populate_entry_trend p cmds pair df inf).2, s.pair ≠ pair := by
  have heq : populate_entry_trend p cmds pair df inf =
      (⟨fun i => decide (volAt df i > 0),
        fun i => if volAt df i > 0 then some "trigger_buy" else none⟩,
       cmds.filter fun s => s.pair ≠ pair) := by
    unfold populate_entry_trend
    rw [hlast]
    simp [hpair, hcmd]
  rw [heq]
  refine ⟨fun i => ⟨rfl, rfl⟩, rfl, ?_⟩
  intro s hs
  exact of_decide_eq_true (List.mem_filter.mp hs).2

/-- C3 witness for the amended theorem: a queue holding exactly one BUY
command for the current pair marks the unit-volume row with tag
`'trigger_buy'` and ends with an empty queue. -/
theorem buy_command_last_triggers_witness :
    cmdsA.getLast? = some ⟨"AAA/USDT", "BUY"⟩ ∧
      (populate_entry_trend defaultParams cmdsA "AAA/USDT" dfOne none).1.flag 0 = true ∧
      (populate_entry_trend defaultParams cmdsA "AAA/USDT" dfOne none).1.tag 0 =
        some "trigger_buy" ∧
      (populate_entry_trend defaultParams cmdsA "AAA/USDT" dfOne none).2 = [] := by
  have h := buy_command_last_triggers defaultParams cmdsA "AAA/USDT" dfOne none
    ⟨"AAA/USDT", "BUY"⟩ (by decide) rfl rfl
  refine ⟨by decide, ?_, ?_, ?_⟩
  · rw [(h.1 0).1]
    decide
  · rw [(h.1 0).2]
    decide
  · rw [h.2.1]
    decide

/-! ## C4 -/

/-- C4: `confirm_trade_exit` approves an exit exactly when the reason
mentions the default exit tag `'macd_ema_exit'` with profit ratio at least
0.005, or mentions `'trailing'` or `'roi'` with profit ratio at least
0.005, or mentions a forced/manual trigger (`'force'` or `'trigger'`),
which is approved regardless of profit.  In particular reason `"roi"` with
profit 0.01 is approved, `"roi"` with profit 0.001 is rejected, and any
reason containing `"force"` is approved. -/
theorem confirm_trade_exit_spec :
    (∀ (r : String) (pr : ℚ), confirm_trade_exit r pr = true ↔
      (strIn "macd_ema_exit" r = true ∧ 0.005 ≤ pr) ∨
        ((strIn "trailing" r = true ∨ strIn "roi" r = true) ∧ 0.005 ≤ pr) ∨
        (strIn "force" r = true ∨ strIn "trigger" r = true)) ∧
      confirm_trade_exit "roi" 0.01 = true ∧
      confirm_trade_exit "roi" 0.001 = false ∧
      ∀ (r : String) (pr : ℚ), strIn "force" r = true → confirm_trade_exit r pr = true := by
  refine ⟨?_, by decide, by decide, ?_⟩
  · intro r pr
    unfold confirm_trade_exit
    split_ifs with h1 h2 h3 <;>
      simp only [true_iff, false_iff, not_or, ge_iff_le] at * <;> tauto
  · intro r pr hf
    unfold confirm_trade_exit
    split_ifs with h1 h2 h3 <;> tauto

/-- C4 witness: reason `"force_exit"` contains `"force"` and is approved
even at a negative profit ratio. -/
theorem confirm_trade_exit_spec_witness :
    strIn "force" "force_exit" = true ∧ confirm_trade_exit "force_exit" (-1) = true :=
  ⟨by decide, confirm_trade_exit_spec.2.2.2 "force_exit" (-1) (by decide)⟩

/-! ## C5 -/

/-- C5: `adjust_trade_position` either refuses (returns `none`) and leaves
the per-trade store unchanged, or approves — which happens only on the
path where the last analyzed candle shows a resistance-breakout signal —
and then returns exactly the trade's stake amount, appends the current
rate to the persisted DCA list, and persists a stop-loss equal to the
current rate times `new_sl_coef`, a coefficient lying in `(0, 1)` by its
declared bounds `[0.3, 0.9]`. -/
theorem adjust_approval_effect (p : Params) (st : Store) (t : TradeM)
    (rate profit : ℚ) (df : Option AdjDF)
    (hc1 : 0.3 ≤ p.new_sl_coef) (hc2 : p.new_sl_coef ≤ 0.9) :
    adjust_trade_position p st t rate profit df = (none, st) ∨
      (adjust_trade_position p st t rate profit df =
          (some t.stake_amount,
            ⟨some (get_dca_list st ++ [rate]), some (rate * p.new_sl_coef)⟩) ∧
        0 < p.new_sl_coef ∧ p.new_sl_coef < 1) := by
  have hlo : (0 : ℚ) < p.new_sl_coef := by nlinarith
  have hhi : p.new_sl_coef < 1 := by nlinarith
  cases df with
  | none =>
    simp only [adjust_trade_position]
    split_ifs <;> exact Or.inl rfl
  | some d =>
    simp only [adjust_trade_position]
    split_ifs
    all_goals first
      | exact Or.inl rfl
      | exact Or.inr ⟨rfl, hlo, hhi⟩

/-- C5 witness: with an empty store, a trade of stake 100, current rate 80
and an approving analyzed candle, the adjustment returns stake 100, the
DCA list becomes `[80]` and the persisted stop-loss becomes
`80 * 0.75 = 60`; the refusal alternative is ruled out by evaluation. -/
theorem adjust_approval_effect_witness :
    (adjust_trade_position defaultParams ⟨none, none⟩ ⟨100, 90⟩ 80 (-0.02)
          (some ⟨0, true⟩) = (none, ⟨none, none⟩) ∨
        (adjust_trade_position defaultParams ⟨none, none⟩ ⟨100, 90⟩ 80 (-0.02)
            (some ⟨0, true⟩) =
            (some (⟨100, 90⟩ : TradeM).stake_amount,
              ⟨some (get_dca_list ⟨none, none⟩ ++ [80]),
                some (80 * defaultParams.new_sl_coef)⟩) ∧
          0 < defaultParams.new_sl_coef ∧ defaultParams.new_sl_coef < 1)) ∧
      adjust_trade_position defaultParams ⟨none, none⟩ ⟨100, 90⟩ 80 (-0.02)
          (some ⟨0, true⟩) ≠ (none, ⟨none, none⟩) :=
  ⟨adjust_approval_effect defaultParams ⟨none, none⟩ ⟨100, 90⟩ 80 (-0.02)
      (some ⟨0, true⟩) (by decide) (by decide),
    by decide⟩

/-! ## C6 -/

/-- C6: if the current profit is at or above the negative DCA threshold,
`adjust_trade_position` refuses and leaves the store unchanged.  With the
default threshold 0.01, a profit of -0.02 passes this check — the same
call continues to the later checks and (with an approving candle) returns
a stake — while a profit of -0.005 is refused. -/
theorem adjust_profit_threshold (p : Params) (st : Store) (t : TradeM)
    (rate profit : ℚ) (df : Option AdjDF)
    (h : -p.dca_threshold ≤ profit) :
    adjust_trade_position p st t rate profit df = (none, st) ∧
      dcaProfitGuard defaultParams (-0.02) = false ∧
      (adjust_trade_position defaultParams ⟨none, none⟩ ⟨100, 90⟩ 80 (-0.02)
          (some ⟨0, true⟩)).1 = some 100 ∧
      adjust_trade_position defaultParams ⟨none, none⟩ ⟨100, 90⟩ 80 (-0.005)
          (some ⟨0, true⟩) = (none, ⟨none, none⟩) := by
  refine ⟨?_, by decide, by decide, by decide⟩
  have hg : dcaProfitGuard p profit = true := by
    unfold dcaProfitGuard
    exact decide_eq_true (by linarith)
  by_cases h1 : dcaDropGuard (get_dca_list st) rate = true
  · simp [adjust_trade_position, h1]
  · simp [adjust_trade_position, h1, hg]

/-- C6 witness: a profit of -0.005 with default threshold 0.01 satisfies
`-threshold ≤ profit`, and the adjustment refuses. -/
theorem adjust_profit_threshold_witness :
    -defaultParams.dca_threshold ≤ (-0.005 : ℚ) ∧
      adjust_trade_position defaultParams ⟨none, none⟩ ⟨100, 90⟩ 80 (-0.005)
          (some ⟨0, true⟩) = (none, ⟨none, none⟩) :=
  ⟨by decide,
    (adjust_profit_threshold defaultParams ⟨none, none⟩ ⟨100, 90⟩ 80 (-0.005)
        (some ⟨0, true⟩) (by decide)).1⟩

/-! ## C7 -/

/-- C7: when the last analyzed candle's index is not a multiple of the
configured DCA modulo, `adjust_trade_position` never approves an
adjustment, regardless of every other condition. -/
theorem adjust_modulo_refuses (p : Params) (st : Store) (t : TradeM)
    (rate profit : ℚ) (d : AdjDF)
    (h : d.lastIndex % p.dca_candles_modulo ≠ 0) :
    (adjust_trade_position p st t rate profit (some d)).1 = none := by
  simp only [adjust_trade_position]
  split_ifs
  all_goals rfl

/-- C7 witness: candle index 1 with the default modulo 10 is refused even
though every other condition approves. -/
theorem adjust_modulo_refuses_witness :
    (⟨1, true⟩ : AdjDF).lastIndex % defaultParams.dca_candles_modulo ≠ 0 ∧
      (adjust_trade_position defaultParams ⟨none, none⟩ ⟨100, 90⟩ 80 (-0.02)
          (some ⟨1, true⟩)).1 = none :=
  ⟨by decide,
    adjust_modulo_refuses defaultParams ⟨none, none⟩ ⟨100, 90⟩ 80 (-0.02) ⟨1, true⟩
      (by decide)⟩

/-! ## C8 -/

/-- C8: in the default entry path (empty command queue), when informative
higher-timeframe data is present (`some v`), an entry signal requires the
technical condition *and* the current close to lie below the previous
aligned informative close; when the informative dataframe is empty
(`none`), the confirmation is skipped and the entry signal is exactly the
technical condition — the entry is not blocked. -/
theorem entry_informative_gate (p : Params) (df : List Candle) (pair : String)
    (v : List ℚ) (i : ℕ) :
    ((populate_entry_trend p [] pair df (some v)).1.flag i = true ↔
        entryBaseCondAt p df i = true ∧ 1 ≤ i ∧ closeAt df i < v.getD (i - 1) 0) ∧
      (populate_entry_trend p [] pair df none).1.flag i = entryBaseCondAt p df i := by
  constructor
  · cases i with
    | zero => simp [populate_entry_trend, entryMaskAt, infCondAt]
    | succ j => simp [populate_entry_trend, entryMaskAt, infCondAt]
  · simp [populate_entry_trend, entryMaskAt]

/-- C8 witness: on `dfTwo` (whose second row breaks the first resistance)
with aligned informative closes `[100, 100]`, row 1 satisfies the
technical condition and the informative confirmation, so the entry fires;
with an empty informative dataframe the entry fires from the technical
condition alone. -/
theorem entry_informative_gate_witness :
    entryBaseCondAt defaultParams dfTwo 1 = true ∧
      closeAt dfTwo 1 < ([100, 100] : List ℚ).getD 0 0 ∧
      (populate_entry_trend defaultParams [] "AAA/USDT" dfTwo (some [100, 100])).1.flag 1 =
        true ∧
      (populate_entry_trend defaultParams [] "AAA/USDT" dfTwo none).1.flag 1 = true := by
  refine ⟨by decide, by decide, ?_, ?_⟩
  · exact (entry_informative_gate defaultParams dfTwo "AAA/USDT" [100, 100] 1).1.mpr
      ⟨by decide, by norm_num, by decide⟩
  · rw [(entry_informative_gate defaultParams dfTwo "AAA/USDT" [100, 100] 1).2]
    decide

/-! ## C9 -/

/-- C9: `custom_exit` signals a custom exit exactly when the current rate
has fallen to or below the looked-up stop-loss, and the lookup
(`get_mk_sl`) returns the persisted per-trade stop-loss when one exists
and the trade's default stop-loss when none is stored (or the lookup
fails). -/
theorem custom_exit_stoploss (st : Store) (t : TradeM) (rate : ℚ) :
    ((custom_exit st t rate).isSome = true ↔ rate ≤ get_mk_sl st t) ∧
      (∀ v, st.sl = some v → get_mk_sl st t = v) ∧
      (st.sl = none → get_mk_sl st t = t.stop_loss) := by
  refine ⟨?_, ?_, ?_⟩
  · show (if rate ≤ get_mk_sl st t then
        some ("custom_stop_loss_" ++ toString (get_mk_sl st t)) else none).isSome = true ↔
      rate ≤ get_mk_sl st t
    split_ifs with h <;> simp [h]
  · intro v hv
    unfold get_mk_sl
    rw [hv]
    rfl
  · intro hv
    unfold get_mk_sl
    rw [hv]
    rfl

/-- C9 witness: with no persisted stop-loss the lookup falls back to the
trade's default (90), and a current rate of 80 below it triggers the
custom-exit signal. -/
theorem custom_exit_stoploss_witness :
    (⟨none, none⟩ : Store).sl = none ∧
      get_mk_sl (⟨none, none⟩ : Store) (⟨100, 90⟩ : TradeM) = 90 ∧
      (80 : ℚ) ≤ get_mk_sl (⟨none, none⟩ : Store) (⟨100, 90⟩ : TradeM) ∧
      (custom_exit (⟨none, none⟩ : Store) (⟨100, 90⟩ : TradeM) 80).isSome = true :=
  ⟨rfl, (custom_exit_stoploss ⟨none, none⟩ ⟨100, 90⟩ 80).2.2 rfl, by decide,
    (custom_exit_stoploss ⟨none, none⟩ ⟨100, 90⟩ 80).1.mpr (by decide)⟩

/-! ## C10 -/

/-- Helper: in a series whose rows all close at or below their high, each
row's close is bounded by its high. -/
theorem close_le_high_of_all {df : List Candle}
    (h : (df.all fun c => decide (c.close ≤ c.high)) = true) {i : ℕ}
    (hi : i < df.length) :
    closeAt df i ≤ highAt df i := by
  have hmem : df.get ⟨i, hi⟩ ∈ df := List.get_mem df i hi
  have hd := of_decide_eq_true (List.all_eq_true.mp h _ hmem)
  have hc : closeAt df i = (df.get ⟨i, hi⟩).close := by
    unfold closeAt closesL
    rw [List.getD_eq_getElem _ _ (by simpa using hi)]
    simp
  have hh : highAt df i = (df.get ⟨i, hi⟩).high := by
    unfold highAt highsL
    rw [List.getD_eq_getElem _ _ (by simpa using hi)]
    simp
  rw [hc, hh]
  exact hd

/-- C10: on any series whose rows close at or below their high, the
`close > swing_high` disjunct of the base exit path is false on every row
(`swing_high` is a rolling maximum of `high` over a window containing the
current bar, and NaN before `min_periods` observations), so every row the
base exit path marks with `exit_long = 1` satisfies the
MACD-bearish-and-EMA-bearish condition or the TTF-below-lower-threshold
condition. -/
theorem swing_exit_disjuncts (p : Params) (df : List Candle) (i : ℕ)
    (hw : 1 ≤ p.swing_window) (hi : i < df.length)
    (hvalid : (df.all fun c => decide (c.close ≤ c.high)) = true) :
    swingGTAt p df i = false ∧
      (exitBaseCondAt p df i = true →
        (macdBearAt df i && emaBearAt p df i) = true ∨ ttfLowAt p df i = true) := by
  have hsw : swingGTAt p df i = false := by
    unfold swingGTAt swingHighAt rollMax
    split_ifs with hm
    · cases hmax : listMax (sliceWin (highsL df) p.swing_window i) with
      | none => rfl
      | some m =>
        have hhmem : (highsL df).getD i 0 ∈ sliceWin (highsL df) p.swing_window i :=
          getD_mem_sliceWin hw (by simpa [highsL] using hi)
        have hle : (highsL df).getD i 0 ≤ m := le_listMax hhmem hmax
        have hch : closeAt df i ≤ highAt df i := close_le_high_of_all hvalid hi
        simp only [oGT]
        exact decide_eq_false (not_lt.mpr (le_trans hch hle))
    · rfl
  refine ⟨hsw, ?_⟩
  intro hx
  unfold exitBaseCondAt at hx
  rw [Bool.and_eq_true] at hx
  rcases hx with ⟨hor, _⟩
  rw [hsw] at hor
  simpa using hor

/-- C10 witness: on the valid series `dfTwo` the swing-high disjunct is
false at row 0 and the implication to the remaining exit disjuncts holds. -/
theorem swing_exit_disjuncts_witness :
    1 ≤ defaultParams.swing_window ∧ 0 < dfTwo.length ∧
      (dfTwo.all fun c => decide (c.close ≤ c.high)) = true ∧
      (swingGTAt defaultParams dfTwo 0 = false ∧
        (exitBaseCondAt defaultParams dfTwo 0 = true →
          (macdBearAt dfTwo 0 && emaBearAt defaultParams dfTwo 0) = true ∨
            ttfLowAt defaultParams dfTwo 0 = true)) :=
  ⟨by decide, by decide, by decide,
    swing_exit_disjuncts defaultParams dfTwo 0 (by decide) (by decide) (by decide)⟩
